import Mathlib

/-!
Verification of the flashrom internal-device update core
(`plugins/flashrom/fu-flashrom-internal-device.c`) against its
natural-language specification.

The C code orchestrates calls into libflashrom (descriptor-layout read,
region restriction, layout activation/release, image read/write/verify),
the local filesystem (backup artifact), a progress ledger, and an optional
CMOS-reset post-action.  The shallow embedding below models the two
orchestration functions, `fu_flashrom_internal_device_prepare` and
`fu_flashrom_internal_device_write_firmware`, as pure Lean functions.
External primitives (libflashrom calls, filesystem operations, the CMOS
reset) are oracle fields of the state records: each is a function or an
`Option GErr` value describing the outcome that the primitive would
report, so the embedding quantifies over every possible behaviour of the
collaborators.  A `Trace` record counts every invocation of each
primitive, so that claims about "zero invocations" or "exactly one
invocation" are directly statable.
-/

namespace Flashrom

/-- The `FwupdError` codes used by this file of the source
(`FWUPD_ERROR_READ`, `FWUPD_ERROR_NOT_SUPPORTED`, `FWUPD_ERROR_WRITE`). -/
inductive FwupdErrorCode where
  | read
  | notSupported
  | write
deriving DecidableEq, Repr

/-- A `GError` as produced by `g_set_error` / `g_set_error_literal` in this
file: the fwupd error code together with the formatted message text. -/
structure GErr where
  code : FwupdErrorCode
  message : String
deriving DecidableEq, Repr

/-- Lower-case hexadecimal rendering of a natural number, as `%x` formats
an unsigned integer in C. -/
def hexStr (n : Nat) : String :=
  String.mk (Nat.toDigits 16 n)

/-- Error set when `flashrom_layout_read_from_ifd` fails (both call sites). -/
def descriptorReadError : GErr :=
  ⟨FwupdErrorCode.read, "failed to read layout from Intel ICH descriptor"⟩

/-- Error set when `flashrom_layout_include_region (layout, \x7bbios\x7d)` fails
(both call sites). -/
def invalidRegionError : GErr :=
  ⟨FwupdErrorCode.notSupported, "invalid region name"⟩

/-- Error set when the update image size differs from the flash size:
`invalid image size 0x%x, expected 0x%x` with the actual then the expected
size. -/
def sizeMismatchError (sz flashSize : Nat) : GErr :=
  ⟨FwupdErrorCode.notSupported,
    "invalid image size 0x" ++ hexStr sz ++ ", expected 0x" ++ hexStr flashSize⟩

/-- Error set when `flashrom_image_read` fails during backup. -/
def backupReadError : GErr :=
  ⟨FwupdErrorCode.read, "failed to back up original firmware"⟩

/-- Error set when `flashrom_image_write` returns a non-zero code `rc`:
`image write failed, err=%i`. -/
def imageWriteError (rc : Int) : GErr :=
  ⟨FwupdErrorCode.write, "image write failed, err=" ++ toString rc⟩

/-- Error set when `flashrom_image_verify` reports a mismatch. -/
def imageVerifyError : GErr :=
  ⟨FwupdErrorCode.write, "image verify failed"⟩

/-- `g_prefix_error`: keeps the error code, prepends text to the message. -/
def gPrefixError (p : String) (e : GErr) : GErr :=
  ⟨e.code, p ++ e.message⟩

/-- Error returned when `fu_firmware_get_bytes` yields NULL.  The message
is chosen by that external accessor and is immaterial here: no claim
concerns this path. -/
def fuFirmwareGetBytesError : GErr :=
  ⟨FwupdErrorCode.read, "fu_firmware_get_bytes failed"⟩

/-- The progress statuses this file uses. -/
inductive FwupdStatus where
  | deviceWrite
  | deviceVerify
  | deviceRead
deriving DecidableEq, Repr

/-- The progress ledger (`FuProgress`): the ordered list of registered
weighted steps, and the ordered list of statuses of the steps marked done
so far (`fu_progress_step_done` completes the steps in registration
order). -/
structure Progress where
  steps : List (FwupdStatus × Nat)
  done : List FwupdStatus
deriving DecidableEq, Repr

def Progress.empty : Progress := ⟨[], []⟩

/-- `fu_progress_step_done`: marks the next registered step complete, in
registration order. -/
def Progress.stepDone (p : Progress) : Progress :=
  match p.steps[p.done.length]? with
  | some s => ⟨p.steps, p.done ++ [s.1]⟩
  | none => p

/-- A libflashrom layout handle: the set of region names present in the
descriptor. -/
structure FlashromLayout where
  regions : List String
deriving DecidableEq, Repr

/-- The libflashrom flash context, with each primitive the orchestration
code calls modelled as an oracle describing its outcome:
* `ifdLayout` — result of `flashrom_layout_read_from_ifd` (`none` = failure);
* `imageRead` — `flashrom_image_read` applied to the supplied buffer,
  returning the buffer contents afterwards (`none` = failure);
* `imageWrite` — the return code of `flashrom_image_write` (0 = success);
* `imageVerify` — the return code of `flashrom_image_verify` (0 = match). -/
structure FlashromFlashctx where
  flashSize : Nat
  ifdLayout : Option FlashromLayout
  imageRead : List Nat → Option (List Nat)
  imageWrite : List Nat → Int
  imageVerify : List Nat → Int

/-- The device handle: stable identifier, the `reset-cmos` private flag,
the outcome of `fu_flashrom_cmos_reset` if it were invoked (`none` =
success), and the flash context. -/
structure Device where
  deviceId : String
  resetCmos : Bool
  cmosResetErr : Option GErr
  ctx : FlashromFlashctx

/-- The local filesystem as the prepare step sees it: file contents by
path, and the outcomes of `fu_common_mkdir_parent` and
`fu_common_set_contents_bytes` (`none` = success). -/
structure FS where
  files : String → Option (List Nat)
  mkdirErr : Option GErr
  setContentsErr : Option GErr

/-- Write a file: afterwards the path maps to the given contents. -/
def FS.write (fs : FS) (path : String) (contents : List Nat) : FS :=
  ⟨fun p => if p = path then some contents else fs.files p,
   fs.mkdirErr, fs.setContentsErr⟩

/-- Invocation counts of every external primitive, recorded by the
embedding so that claims about which primitives run (and how often) are
statable. -/
structure Trace where
  descReads : Nat
  includeRegions : Nat
  layoutSets : Nat
  layoutReleases : Nat
  imageReads : Nat
  imageWrites : Nat
  verifies : Nat
  fileWrites : Nat
  cmosResets : Nat
deriving DecidableEq, Repr

def Trace.empty : Trace := ⟨0, 0, 0, 0, 0, 0, 0, 0, 0⟩

/-- The backup artifact basename: `g_strdup_printf ("flashrom-%s.bin", id)`. -/
def backupBasename (deviceId : String) : String :=
  "flashrom-" ++ deviceId ++ ".bin"

/-- The backup artifact path:
`g_build_filename (localstatedir, "builder", basename, NULL)`. -/
def backupPath (localstatedir deviceId : String) : String :=
  localstatedir ++ "/builder/" ++ backupBasename deviceId

/-- `fu_flashrom_internal_device_prepare`: ensure the parent directory of
the backup path exists; if a file already exists at the backup path,
return success; otherwise read the IFD layout, include the `bios` region,
activate the layout, read the flash into a zero-initialized buffer of
`flash_size` bytes, and persist the result to the backup path.  Returns
the outcome, the resulting filesystem, and the invocation trace. -/
def fu_flashrom_internal_device_prepare (dev : Device) (localstatedir : String)
    (fs : FS) : Except GErr Unit × FS × Trace :=
  let firmware_orig := backupPath localstatedir dev.deviceId
  match fs.mkdirErr with
  | some e => (Except.error e, fs, Trace.empty)
  | none =>
    match fs.files firmware_orig with
    | some _ => (Except.ok (), fs, Trace.empty)
    | none =>
      let flash_size := dev.ctx.flashSize
      let newcontents : List Nat := List.replicate flash_size 0
      let t1 : Trace := { Trace.empty with descReads := 1 }
      match dev.ctx.ifdLayout with
      | none => (Except.error descriptorReadError, fs, t1)
      | some layout =>
        let t2 : Trace := { t1 with includeRegions := 1 }
        if layout.regions.contains "bios" then
          let t3 : Trace := { t2 with layoutSets := 1 }
          let t4 : Trace := { t3 with imageReads := 1 }
          match dev.ctx.imageRead newcontents with
          | none => (Except.error backupReadError, fs, t4)
          | some buf =>
            match fs.setContentsErr with
            | some e => (Except.error e, fs, t4)
            | none =>
              (Except.ok (), fs.write firmware_orig buf,
               { t4 with fileWrites := 1 })
        else
          (Except.error invalidRegionError, fs, t2)

/-- `fu_flashrom_internal_device_write_firmware`: get the image bytes,
register the two progress steps (write 90, verify 10), read the IFD
layout, include the `bios` region, activate the layout, check the image
size against the flash size, write, mark the write step done, verify,
mark the verify step done, release the layout, and finally run the CMOS
reset when the `reset-cmos` flag is set.  Returns the outcome, the final
progress ledger, and the invocation trace. -/
def fu_flashrom_internal_device_write_firmware (dev : Device)
    (blob_fw : Option (List Nat)) : Except GErr Unit × Progress × Trace :=
  match blob_fw with
  | none => (Except.error fuFirmwareGetBytesError, Progress.empty, Trace.empty)
  | some buf =>
    let progress : Progress :=
      ⟨[(FwupdStatus.deviceWrite, 90), (FwupdStatus.deviceVerify, 10)], []⟩
    let sz := buf.length
    let flash_size := dev.ctx.flashSize
    let t1 : Trace := { Trace.empty with descReads := 1 }
    match dev.ctx.ifdLayout with
    | none => (Except.error descriptorReadError, progress, t1)
    | some layout =>
      let t2 : Trace := { t1 with includeRegions := 1 }
      if layout.regions.contains "bios" then
        let t3 : Trace := { t2 with layoutSets := 1 }
        if sz ≠ flash_size then
          (Except.error (sizeMismatchError sz flash_size), progress, t3)
        else
          let rc := dev.ctx.imageWrite buf
          let t4 : Trace := { t3 with imageWrites := 1 }
          if rc ≠ 0 then
            (Except.error (imageWriteError rc), progress, t4)
          else
            let progress := progress.stepDone
            let t5 : Trace := { t4 with verifies := 1 }
            if dev.ctx.imageVerify buf ≠ 0 then
              (Except.error imageVerifyError, progress, t5)
            else
              let progress := progress.stepDone
              let t6 : Trace := { t5 with layoutReleases := 1 }
              if dev.resetCmos then
                let t7 : Trace := { t6 with cmosResets := 1 }
                match dev.cmosResetErr with
                | some e =>
                  (Except.error (gPrefixError "failed CMOS reset: " e), progress, t7)
                | none => (Except.ok (), progress, t7)
              else
                (Except.ok (), progress, t6)
      else
        (Except.error invalidRegionError, progress, t2)

/-! ### Concrete fixtures for counterexamples and witnesses -/

/-- A descriptor layout that contains the `bios` region. -/
def okLayout : FlashromLayout := ⟨["fd", "bios", "me"]⟩

/-- A descriptor layout that lacks the `bios` region. -/
def noBiosLayout : FlashromLayout := ⟨["fd", "me"]⟩

/-- A flash context of size 4 with configurable layout and write/verify
return codes; reads return the buffer unchanged. -/
def mkCtx (ifd : Option FlashromLayout) (w v : Int) : FlashromFlashctx :=
  ⟨4, ifd, fun b => some b, fun _ => w, fun _ => v⟩

/-- A device over `mkCtx` with configurable reset-cmos flag and CMOS
outcome. -/
def mkDevice (flag : Bool) (cer : Option GErr) (ifd : Option FlashromLayout)
    (w v : Int) : Device :=
  ⟨"dev0", flag, cer, mkCtx ifd w v⟩

/-- A correctly-sized image for `mkCtx` (4 bytes). -/
def img4 : List Nat := [1, 2, 3, 4]

/-- A wrongly-sized image for `mkCtx` (2 bytes). -/
def img2 : List Nat := [9, 9]

/-- An empty filesystem where directory creation and persistence succeed. -/
def fsEmpty : FS := ⟨fun _ => none, none, none⟩

/-! ### Claims -/

/-- Claim C1, as stated, is false: on a size-mismatched image the
operation does fail with the size-mismatch error, but only after one
invocation of the descriptor-read primitive (and the layout has even been
activated), not zero. -/
theorem size_gate_counterexample :
    (fu_flashrom_internal_device_write_firmware
        (mkDevice false none (some okLayout) 0 0) (some img2)).1 =
      Except.error (sizeMismatchError 2 4) ∧
    (fu_flashrom_internal_device_write_firmware
        (mkDevice false none (some okLayout) 0 0) (some img2)).2.2.descReads = 1 := by
  constructor <;> rfl

/-- Claim C1 (amended): when the descriptor read succeeds and the layout
contains the `bios` region, an image whose length differs from the flash
size makes `fu_flashrom_internal_device_write_firmware` fail with the
size-mismatch error before any write or verify invocation — but after
exactly one descriptor read and the layout activation, which precede the
size check in the code. -/
theorem size_gate_before_write (dev : Device) (buf : List Nat)
    (l : FlashromLayout) (hl : dev.ctx.ifdLayout = some l)
    (hb : l.regions.contains "bios" = true)
    (hsz : buf.length ≠ dev.ctx.flashSize) :
    (fu_flashrom_internal_device_write_firmware dev (some buf)).1 =
      Except.error (sizeMismatchError buf.length dev.ctx.flashSize) ∧
    (fu_flashrom_internal_device_write_firmware dev (some buf)).2.2.imageWrites = 0 ∧
    (fu_flashrom_internal_device_write_firmware dev (some buf)).2.2.verifies = 0 ∧
    (fu_flashrom_internal_device_write_firmware dev (some buf)).2.2.descReads = 1 ∧
    (fu_flashrom_internal_device_write_firmware dev (some buf)).2.2.layoutSets = 1 := by
  simp only [fu_flashrom_internal_device_write_firmware, hl, hb, if_true,
    if_pos hsz]
  refine ⟨?_, ?_, ?_, ?_, ?_⟩ <;> trivial

/-- Witness for the amended C1 at a concrete input. -/
theorem size_gate_before_write_witness :
    (fu_flashrom_internal_device_write_firmware
        (mkDevice false none (some okLayout) 0 0) (some img2)).1 =
      Except.error (sizeMismatchError img2.length
        (mkDevice false none (some okLayout) 0 0).ctx.flashSize) ∧
    (fu_flashrom_internal_device_write_firmware
        (mkDevice false none (some okLayout) 0 0) (some img2)).2.2.imageWrites = 0 ∧
    (fu_flashrom_internal_device_write_firmware
        (mkDevice false none (some okLayout) 0 0) (some img2)).2.2.verifies = 0 ∧
    (fu_flashrom_internal_device_write_firmware
        (mkDevice false none (some okLayout) 0 0) (some img2)).2.2.descReads = 1 ∧
    (fu_flashrom_internal_device_write_firmware
        (mkDevice false none (some okLayout) 0 0) (some img2)).2.2.layoutSets = 1 :=
  size_gate_before_write (mkDevice false none (some okLayout) 0 0) img2
    okLayout rfl (by decide) (by decide)

/-- Claim C2: with a backup file already present the prepare step returns
success with no descriptor read, no device read and no file write; and
two successive calls starting from a fresh state perform exactly one
device read and one file write in total, the second call being a no-op
that returns success. -/
theorem backup_idempotent (dev : Device) (localstatedir : String)
    (fs fs2 : FS) (l : FlashromLayout) (c c2 : List Nat)
    (hm : fs.mkdirErr = none)
    (habs : fs.files (backupPath localstatedir dev.deviceId) = none)
    (hl : dev.ctx.ifdLayout = some l)
    (hb : l.regions.contains "bios" = true)
    (hr : dev.ctx.imageRead (List.replicate dev.ctx.flashSize 0) = some c)
    (hs : fs.setContentsErr = none)
    (hm2 : fs2.mkdirErr = none)
    (hex : fs2.files (backupPath localstatedir dev.deviceId) = some c2) :
    fu_flashrom_internal_device_prepare dev localstatedir fs2 =
      (Except.ok (), fs2, Trace.empty) ∧
    (fu_flashrom_internal_device_prepare dev localstatedir fs).1 =
      Except.ok () ∧
    (fu_flashrom_internal_device_prepare dev localstatedir fs).2.2.imageReads = 1 ∧
    (fu_flashrom_internal_device_prepare dev localstatedir fs).2.2.fileWrites = 1 ∧
    fu_flashrom_internal_device_prepare dev localstatedir
        (fu_flashrom_internal_device_prepare dev localstatedir fs).2.1 =
      (Except.ok (),
       (fu_flashrom_internal_device_prepare dev localstatedir fs).2.1,
       Trace.empty) := by
  have h2 : fu_flashrom_internal_device_prepare dev localstatedir fs2 =
      (Except.ok (), fs2, Trace.empty) := by
    simp only [fu_flashrom_internal_device_prepare, hm2, hex]
  have h1 : fu_flashrom_internal_device_prepare dev localstatedir fs =
      (Except.ok (),
       fs.write (backupPath localstatedir dev.deviceId) c,
       ⟨1, 1, 1, 0, 1, 0, 0, 1, 0⟩) := by
    simp only [fu_flashrom_internal_device_prepare, hm, habs, hl, hb, hr, hs,
      if_true]
    rfl
  refine ⟨h2, ?_, ?_, ?_, ?_⟩
  · rw [h1]
  · rw [h1]
  · rw [h1]
  · rw [h1]
    simp [fu_flashrom_internal_device_prepare, FS.write, hm]

/-- Witness for C2 at a concrete device and filesystem. -/
theorem backup_idempotent_witness :
    fu_flashrom_internal_device_prepare (mkDevice false none (some okLayout) 0 0)
        "/var" (fsEmpty.write (backupPath "/var" "dev0") [7]) =
      (Except.ok (), fsEmpty.write (backupPath "/var" "dev0") [7], Trace.empty) ∧
    (fu_flashrom_internal_device_prepare (mkDevice false none (some okLayout) 0 0)
        "/var" fsEmpty).1 = Except.ok () ∧
    (fu_flashrom_internal_device_prepare (mkDevice false none (some okLayout) 0 0)
        "/var" fsEmpty).2.2.imageReads = 1 ∧
    (fu_flashrom_internal_device_prepare (mkDevice false none (some okLayout) 0 0)
        "/var" fsEmpty).2.2.fileWrites = 1 ∧
    fu_flashrom_internal_device_prepare (mkDevice false none (some okLayout) 0 0)
        "/var" (fu_flashrom_internal_device_prepare
          (mkDevice false none (some okLayout) 0 0) "/var" fsEmpty).2.1 =
      (Except.ok (),
       (fu_flashrom_internal_device_prepare
         (mkDevice false none (some okLayout) 0 0) "/var" fsEmpty).2.1,
       Trace.empty) :=
  backup_idempotent (mkDevice false none (some okLayout) 0 0) "/var"
    fsEmpty (fsEmpty.write (backupPath "/var" "dev0") [7]) okLayout
    (List.replicate 4 0) [7] rfl rfl rfl (by decide) rfl rfl rfl
    (by simp [FS.write, fsEmpty, mkDevice, mkCtx])

/-- Claim C3: when no backup exists and every primitive succeeds, the
prepare step writes the backup file at exactly
`localstatedir ++ "/builder/" ++ "flashrom-" ++ deviceId ++ ".bin"`, with
contents equal to the bytes the device read produced from the
zero-initialized buffer of `flashSize` bytes, and with length equal to
the flash size. -/
theorem backup_creation (dev : Device) (localstatedir : String) (fs : FS)
    (l : FlashromLayout) (c : List Nat)
    (hm : fs.mkdirErr = none)
    (habs : fs.files (backupPath localstatedir dev.deviceId) = none)
    (hl : dev.ctx.ifdLayout = some l)
    (hb : l.regions.contains "bios" = true)
    (hr : dev.ctx.imageRead (List.replicate dev.ctx.flashSize 0) = some c)
    (hlen : c.length = dev.ctx.flashSize)
    (hs : fs.setContentsErr = none) :
    (fu_flashrom_internal_device_prepare dev localstatedir fs).1 =
      Except.ok () ∧
    (fu_flashrom_internal_device_prepare dev localstatedir fs).2.1.files
        (localstatedir ++ "/builder/" ++ ("flashrom-" ++ dev.deviceId ++ ".bin")) =
      some c ∧
    c.length = dev.ctx.flashSize := by
  have h1 : fu_flashrom_internal_device_prepare dev localstatedir fs =
      (Except.ok (),
       fs.write (backupPath localstatedir dev.deviceId) c,
       ⟨1, 1, 1, 0, 1, 0, 0, 1, 0⟩) := by
    simp only [fu_flashrom_internal_device_prepare, hm, habs, hl, hb, hr, hs,
      if_true]
    rfl
  rw [h1]
  exact ⟨rfl, by simp [FS.write, backupPath, backupBasename], hlen⟩

/-- Witness for C3 at a concrete device and filesystem. -/
theorem backup_creation_witness :
    (fu_flashrom_internal_device_prepare (mkDevice false none (some okLayout) 0 0)
        "/var" fsEmpty).1 = Except.ok () ∧
    (fu_flashrom_internal_device_prepare (mkDevice false none (some okLayout) 0 0)
        "/var" fsEmpty).2.1.files
        ("/var" ++ "/builder/" ++ ("flashrom-" ++ "dev0" ++ ".bin")) =
      some (List.replicate 4 0) ∧
    (List.replicate 4 0).length =
      (mkDevice false none (some okLayout) 0 0).ctx.flashSize :=
  backup_creation (mkDevice false none (some okLayout) 0 0) "/var" fsEmpty
    okLayout (List.replicate 4 0) rfl rfl rfl (by decide) rfl (by decide) rfl

/-- Evaluation of the first `fu_progress_step_done` on the registered
two-step ledger. -/
theorem stepDone_first :
    (⟨[(FwupdStatus.deviceWrite, 90), (FwupdStatus.deviceVerify, 10)], []⟩ :
        Progress).stepDone =
      ⟨[(FwupdStatus.deviceWrite, 90), (FwupdStatus.deviceVerify, 10)],
       [FwupdStatus.deviceWrite]⟩ := rfl

/-- Evaluation of the second `fu_progress_step_done` on the registered
two-step ledger. -/
theorem stepDone_second :
    (⟨[(FwupdStatus.deviceWrite, 90), (FwupdStatus.deviceVerify, 10)],
       [FwupdStatus.deviceWrite]⟩ : Progress).stepDone =
      ⟨[(FwupdStatus.deviceWrite, 90), (FwupdStatus.deviceVerify, 10)],
       [FwupdStatus.deviceWrite, FwupdStatus.deviceVerify]⟩ := rfl

/-- Claim C4: when the descriptor layout lacks the `bios` region, both the
write path and the backup path fail with the invalid-region error, do not
activate any layout (`flashrom_layout_set` is never reached), attempt no
write or verify, and perform no device read or file write. -/
theorem region_restriction_enforced (dev : Device) (localstatedir : String)
    (fs : FS) (buf : List Nat) (l : FlashromLayout)
    (hl : dev.ctx.ifdLayout = some l)
    (hb : l.regions.contains "bios" = false)
    (hm : fs.mkdirErr = none)
    (habs : fs.files (backupPath localstatedir dev.deviceId) = none) :
    (fu_flashrom_internal_device_write_firmware dev (some buf)).1 =
      Except.error invalidRegionError ∧
    (fu_flashrom_internal_device_write_firmware dev (some buf)).2.2.layoutSets = 0 ∧
    (fu_flashrom_internal_device_write_firmware dev (some buf)).2.2.imageWrites = 0 ∧
    (fu_flashrom_internal_device_write_firmware dev (some buf)).2.2.verifies = 0 ∧
    (fu_flashrom_internal_device_prepare dev localstatedir fs).1 =
      Except.error invalidRegionError ∧
    (fu_flashrom_internal_device_prepare dev localstatedir fs).2.2.layoutSets = 0 ∧
    (fu_flashrom_internal_device_prepare dev localstatedir fs).2.2.imageReads = 0 ∧
    (fu_flashrom_internal_device_prepare dev localstatedir fs).2.2.fileWrites = 0 := by
  have hw : fu_flashrom_internal_device_write_firmware dev (some buf) =
      (Except.error invalidRegionError,
       ⟨[(FwupdStatus.deviceWrite, 90), (FwupdStatus.deviceVerify, 10)], []⟩,
       ⟨1, 1, 0, 0, 0, 0, 0, 0, 0⟩) := by
    simp only [fu_flashrom_internal_device_write_firmware, hl, hb,
      Bool.false_eq_true, if_false]
    rfl
  have hp : fu_flashrom_internal_device_prepare dev localstatedir fs =
      (Except.error invalidRegionError, fs, ⟨1, 1, 0, 0, 0, 0, 0, 0, 0⟩) := by
    simp only [fu_flashrom_internal_device_prepare, hm, habs, hl, hb,
      Bool.false_eq_true, if_false]
    rfl
  rw [hw, hp]
  refine ⟨rfl, rfl, rfl, rfl, rfl, rfl, rfl, rfl⟩

/-- Witness for C4 at a concrete device whose descriptor lacks `bios`. -/
theorem region_restriction_enforced_witness :
    (fu_flashrom_internal_device_write_firmware
        (mkDevice false none (some noBiosLayout) 0 0) (some img4)).1 =
      Except.error invalidRegionError ∧
    (fu_flashrom_internal_device_write_firmware
        (mkDevice false none (some noBiosLayout) 0 0) (some img4)).2.2.layoutSets = 0 ∧
    (fu_flashrom_internal_device_write_firmware
        (mkDevice false none (some noBiosLayout) 0 0) (some img4)).2.2.imageWrites = 0 ∧
    (fu_flashrom_internal_device_write_firmware
        (mkDevice false none (some noBiosLayout) 0 0) (some img4)).2.2.verifies = 0 ∧
    (fu_flashrom_internal_device_prepare
        (mkDevice false none (some noBiosLayout) 0 0) "/var" fsEmpty).1 =
      Except.error invalidRegionError ∧
    (fu_flashrom_internal_device_prepare
        (mkDevice false none (some noBiosLayout) 0 0) "/var" fsEmpty).2.2.layoutSets = 0 ∧
    (fu_flashrom_internal_device_prepare
        (mkDevice false none (some noBiosLayout) 0 0) "/var" fsEmpty).2.2.imageReads = 0 ∧
    (fu_flashrom_internal_device_prepare
        (mkDevice false none (some noBiosLayout) 0 0) "/var" fsEmpty).2.2.fileWrites = 0 :=
  region_restriction_enforced (mkDevice false none (some noBiosLayout) 0 0)
    "/var" fsEmpty img4 noBiosLayout rfl (by decide) rfl rfl

/-- Write succeeds, verify fails: a device fixture for the verify-failure
scenario. -/
def devVerifyFail : Device := mkDevice false none (some okLayout) 0 1

/-- Write fails with return code 1: a device fixture for the
write-failure scenario. -/
def devWriteFail : Device := mkDevice false none (some okLayout) 1 0

/-- Everything succeeds: a device fixture for the success scenario. -/
def devAllOk : Device := mkDevice false none (some okLayout) 0 0

/-- Claim C5: the verify primitive runs only when the write primitive
reported success; the ledger marks the verify phase complete only with
the write phase already complete; and a verify failure yields the
verify-failure error with the write phase complete and the verify phase
incomplete. -/
theorem verify_only_after_write (dev : Device) (buf : List Nat) :
    ((fu_flashrom_internal_device_write_firmware dev (some buf)).2.2.verifies ≠ 0 →
      dev.ctx.imageWrite buf = 0 ∧
      (fu_flashrom_internal_device_write_firmware dev (some buf)).2.2.imageWrites = 1) ∧
    (FwupdStatus.deviceVerify ∈
        (fu_flashrom_internal_device_write_firmware dev (some buf)).2.1.done →
      (fu_flashrom_internal_device_write_firmware dev (some buf)).2.1.done =
        [FwupdStatus.deviceWrite, FwupdStatus.deviceVerify]) ∧
    ((fu_flashrom_internal_device_write_firmware dev (some buf)).2.2.verifies = 1 ∧
        dev.ctx.imageVerify buf ≠ 0 →
      (fu_flashrom_internal_device_write_firmware dev (some buf)).1 =
        Except.error imageVerifyError ∧
      (fu_flashrom_internal_device_write_firmware dev (some buf)).2.1.done =
        [FwupdStatus.deviceWrite]) := by
  rcases hIfd : dev.ctx.ifdLayout with _ | l
  · simp [fu_flashrom_internal_device_write_firmware, hIfd, Trace.empty]
  · by_cases hB : "bios" ∈ l.regions
    · by_cases hSz : buf.length = dev.ctx.flashSize
      · by_cases hRc : dev.ctx.imageWrite buf = 0
        · by_cases hV : dev.ctx.imageVerify buf = 0
          · rcases hF : dev.resetCmos
            · simp [fu_flashrom_internal_device_write_firmware, hIfd, hB, hSz,
                hRc, hV, hF, stepDone_first, stepDone_second, Trace.empty]
            · rcases hC : dev.cmosResetErr with _ | e <;>
                simp [fu_flashrom_internal_device_write_firmware, hIfd, hB, hSz,
                  hRc, hV, hF, hC, stepDone_first, stepDone_second, Trace.empty]
          · simp [fu_flashrom_internal_device_write_firmware, hIfd, hB, hSz,
              hRc, hV, stepDone_first, Trace.empty]
        · simp [fu_flashrom_internal_device_write_firmware, hIfd, hB, hSz, hRc,
            Trace.empty]
      · simp [fu_flashrom_internal_device_write_firmware, hIfd, hB, hSz,
          Trace.empty]
    · simp [fu_flashrom_internal_device_write_firmware, hIfd, hB, Trace.empty]

/-- Witness for C5: at the verify-failure fixture the verify primitive
did run with the write having succeeded, the result is the verify-failure
error with only the write phase complete; at the all-success fixture the
verify phase is complete only together with the write phase. -/
theorem verify_only_after_write_witness :
    (devVerifyFail.ctx.imageWrite img4 = 0 ∧
     (fu_flashrom_internal_device_write_firmware devVerifyFail
        (some img4)).2.2.imageWrites = 1) ∧
    ((fu_flashrom_internal_device_write_firmware devAllOk (some img4)).2.1.done =
      [FwupdStatus.deviceWrite, FwupdStatus.deviceVerify]) ∧
    ((fu_flashrom_internal_device_write_firmware devVerifyFail (some img4)).1 =
      Except.error imageVerifyError ∧
     (fu_flashrom_internal_device_write_firmware devVerifyFail
        (some img4)).2.1.done = [FwupdStatus.deviceWrite]) :=
  ⟨(verify_only_after_write devVerifyFail img4).1 (by decide),
   (verify_only_after_write devAllOk img4).2.1 (by decide),
   (verify_only_after_write devVerifyFail img4).2.2 ⟨by decide, by decide⟩⟩

/-- Claim C6: the post-write CMOS reset runs only when the `reset-cmos`
flag is set; with the flag unset a verified write returns success with
the handler never invoked; with the flag set a handler failure makes the
whole operation fail with the handler error prefixed by
`failed CMOS reset: `, even though both the write and verify phases
completed. -/
theorem cmos_reset_gating (dev : Device) (buf : List Nat) (l : FlashromLayout)
    (hl : dev.ctx.ifdLayout = some l)
    (hb : "bios" ∈ l.regions)
    (hsz : buf.length = dev.ctx.flashSize)
    (hw : dev.ctx.imageWrite buf = 0)
    (hv : dev.ctx.imageVerify buf = 0) :
    (fu_flashrom_internal_device_write_firmware dev (some buf)).1 =
      (if dev.resetCmos then
        match dev.cmosResetErr with
        | some e => Except.error (gPrefixError "failed CMOS reset: " e)
        | none => Except.ok ()
      else Except.ok ()) ∧
    (fu_flashrom_internal_device_write_firmware dev (some buf)).2.2.cmosResets =
      (if dev.resetCmos then 1 else 0) ∧
    (fu_flashrom_internal_device_write_firmware dev (some buf)).2.1.done =
      [FwupdStatus.deviceWrite, FwupdStatus.deviceVerify] ∧
    (fu_flashrom_internal_device_write_firmware dev (some buf)).2.2.imageWrites = 1 ∧
    (fu_flashrom_internal_device_write_firmware dev (some buf)).2.2.verifies = 1 := by
  rcases hF : dev.resetCmos
  · simp [fu_flashrom_internal_device_write_firmware, hl, hb, hsz, hw, hv, hF,
      stepDone_first, stepDone_second, Trace.empty]
  · rcases hC : dev.cmosResetErr with _ | e <;>
      simp [fu_flashrom_internal_device_write_firmware, hl, hb, hsz, hw, hv,
        hF, hC, stepDone_first, stepDone_second, Trace.empty]

/-- Witness for C6 at a device with the flag set and a failing handler. -/
theorem cmos_reset_gating_witness :
    (fu_flashrom_internal_device_write_firmware
        (mkDevice true (some ⟨FwupdErrorCode.write, "no dev port"⟩)
          (some okLayout) 0 0) (some img4)).1 =
      (if (mkDevice true (some ⟨FwupdErrorCode.write, "no dev port"⟩)
            (some okLayout) 0 0).resetCmos then
        match (mkDevice true (some ⟨FwupdErrorCode.write, "no dev port"⟩)
            (some okLayout) 0 0).cmosResetErr with
        | some e => Except.error (gPrefixError "failed CMOS reset: " e)
        | none => Except.ok ()
      else Except.ok ()) ∧
    (fu_flashrom_internal_device_write_firmware
        (mkDevice true (some ⟨FwupdErrorCode.write, "no dev port"⟩)
          (some okLayout) 0 0) (some img4)).2.2.cmosResets =
      (if (mkDevice true (some ⟨FwupdErrorCode.write, "no dev port"⟩)
            (some okLayout) 0 0).resetCmos then 1 else 0) ∧
    (fu_flashrom_internal_device_write_firmware
        (mkDevice true (some ⟨FwupdErrorCode.write, "no dev port"⟩)
          (some okLayout) 0 0) (some img4)).2.1.done =
      [FwupdStatus.deviceWrite, FwupdStatus.deviceVerify] ∧
    (fu_flashrom_internal_device_write_firmware
        (mkDevice true (some ⟨FwupdErrorCode.write, "no dev port"⟩)
          (some okLayout) 0 0) (some img4)).2.2.imageWrites = 1 ∧
    (fu_flashrom_internal_device_write_firmware
        (mkDevice true (some ⟨FwupdErrorCode.write, "no dev port"⟩)
          (some okLayout) 0 0) (some img4)).2.2.verifies = 1 :=
  cmos_reset_gating
    (mkDevice true (some ⟨FwupdErrorCode.write, "no dev port"⟩)
      (some okLayout) 0 0) img4 okLayout rfl (by decide) (by decide) rfl rfl

/-- Claim C7, as stated, is false: the error produced by a verify failure
carries the same fwupd error code (`FWUPD_ERROR_WRITE`) as the error
produced when the write primitive itself fails, so the two are not
distinct error kinds at the error-code level. -/
theorem verify_error_kind_counterexample :
    (fu_flashrom_internal_device_write_firmware devVerifyFail (some img4)).1 =
      Except.error imageVerifyError ∧
    (fu_flashrom_internal_device_write_firmware devWriteFail (some img4)).1 =
      Except.error (imageWriteError 1) ∧
    imageVerifyError.code = (imageWriteError 1).code :=
  ⟨rfl, rfl, rfl⟩

/-- Claim C7 (amended): a verify failure is surfaced as the fixed error
`image verify failed` with code `FWUPD_ERROR_WRITE` — the same code as a
write-primitive failure — so the two cases are distinguishable by their
message text but not by their error code. -/
theorem verify_error_distinguishable (dev dev2 : Device) (buf buf2 : List Nat)
    (l l2 : FlashromLayout) (rc : Int)
    (hl : dev.ctx.ifdLayout = some l)
    (hb : "bios" ∈ l.regions)
    (hsz : buf.length = dev.ctx.flashSize)
    (hw : dev.ctx.imageWrite buf = 0)
    (hv : dev.ctx.imageVerify buf ≠ 0)
    (hl2 : dev2.ctx.ifdLayout = some l2)
    (hb2 : "bios" ∈ l2.regions)
    (hsz2 : buf2.length = dev2.ctx.flashSize)
    (hw2 : dev2.ctx.imageWrite buf2 = rc)
    (hrc : rc ≠ 0) :
    (fu_flashrom_internal_device_write_firmware dev (some buf)).1 =
      Except.error imageVerifyError ∧
    (fu_flashrom_internal_device_write_firmware dev2 (some buf2)).1 =
      Except.error (imageWriteError rc) ∧
    imageVerifyError.code = (imageWriteError rc).code ∧
    imageVerifyError ≠ imageWriteError rc := by
  refine ⟨?_, ?_, rfl, ?_⟩
  · simp [fu_flashrom_internal_device_write_firmware, hl, hb, hsz, hw, hv,
      stepDone_first]
  · simp [fu_flashrom_internal_device_write_firmware, hl2, hb2, hsz2, hw2, hrc]
  · intro h
    have hmsg := congrArg (fun e => e.message.length) h
    simp only [imageVerifyError, imageWriteError, String.length_append] at hmsg
    have h19 : ("image verify failed" : String).length = 19 := rfl
    have h24 : ("image write failed, err=" : String).length = 24 := rfl
    rw [h19, h24] at hmsg
    omega

/-- Witness for the amended C7 at the verify-failure and write-failure
fixtures. -/
theorem verify_error_distinguishable_witness :
    (fu_flashrom_internal_device_write_firmware devVerifyFail (some img4)).1 =
      Except.error imageVerifyError ∧
    (fu_flashrom_internal_device_write_firmware devWriteFail (some img4)).1 =
      Except.error (imageWriteError 1) ∧
    imageVerifyError.code = (imageWriteError 1).code ∧
    imageVerifyError ≠ imageWriteError 1 :=
  verify_error_distinguishable devVerifyFail devWriteFail img4 img4
    okLayout okLayout 1 rfl (by decide) (by decide) rfl (by decide)
    rfl (by decide) (by decide) rfl (by decide)

/-- Claim C8: the progress ledger holds exactly the two registered phases,
write with weight 90 then verify with weight 10, and on the success path
each phase is marked complete exactly once, in that order. -/
theorem progress_ledger_phases (dev : Device) (buf : List Nat)
    (l : FlashromLayout)
    (hl : dev.ctx.ifdLayout = some l)
    (hb : "bios" ∈ l.regions)
    (hsz : buf.length = dev.ctx.flashSize)
    (hw : dev.ctx.imageWrite buf = 0)
    (hv : dev.ctx.imageVerify buf = 0) :
    (fu_flashrom_internal_device_write_firmware dev (some buf)).2.1.steps =
      [(FwupdStatus.deviceWrite, 90), (FwupdStatus.deviceVerify, 10)] ∧
    (fu_flashrom_internal_device_write_firmware dev (some buf)).2.1.done =
      [FwupdStatus.deviceWrite, FwupdStatus.deviceVerify] := by
  rcases hF : dev.resetCmos
  · simp [fu_flashrom_internal_device_write_firmware, hl, hb, hsz, hw, hv, hF,
      stepDone_first, stepDone_second, Trace.empty]
  · rcases hC : dev.cmosResetErr with _ | e <;>
      simp [fu_flashrom_internal_device_write_firmware, hl, hb, hsz, hw, hv,
        hF, hC, stepDone_first, stepDone_second, Trace.empty]

/-- Witness for C8 at the all-success fixture. -/
theorem progress_ledger_phases_witness :
    (fu_flashrom_internal_device_write_firmware devAllOk (some img4)).2.1.steps =
      [(FwupdStatus.deviceWrite, 90), (FwupdStatus.deviceVerify, 10)] ∧
    (fu_flashrom_internal_device_write_firmware devAllOk (some img4)).2.1.done =
      [FwupdStatus.deviceWrite, FwupdStatus.deviceVerify] :=
  progress_ledger_phases devAllOk img4 okLayout rfl (by decide) (by decide)
    rfl rfl

/-- Claim C9: `flashrom_layout_release` is invoked exactly on the path
where both the write and the verify phases completed; on every error exit
taken before that point (descriptor-read failure, missing region, size
mismatch, write failure, verify failure) the layout is left unreleased. -/
theorem layout_released_only_on_success (dev : Device) (buf : List Nat) :
    (fu_flashrom_internal_device_write_firmware dev (some buf)).2.2.layoutReleases ≤ 1 ∧
    ((fu_flashrom_internal_device_write_firmware dev (some buf)).2.2.layoutReleases = 1 ↔
      (fu_flashrom_internal_device_write_firmware dev (some buf)).2.1.done =
        [FwupdStatus.deviceWrite, FwupdStatus.deviceVerify]) := by
  rcases hIfd : dev.ctx.ifdLayout with _ | l
  · simp [fu_flashrom_internal_device_write_firmware, hIfd, Trace.empty]
  · by_cases hB : "bios" ∈ l.regions
    · by_cases hSz : buf.length = dev.ctx.flashSize
      · by_cases hRc : dev.ctx.imageWrite buf = 0
        · by_cases hV : dev.ctx.imageVerify buf = 0
          · rcases hF : dev.resetCmos
            · simp [fu_flashrom_internal_device_write_firmware, hIfd, hB, hSz,
                hRc, hV, hF, stepDone_first, stepDone_second, Trace.empty]
            · rcases hC : dev.cmosResetErr with _ | e <;>
                simp [fu_flashrom_internal_device_write_firmware, hIfd, hB, hSz,
                  hRc, hV, hF, hC, stepDone_first, stepDone_second, Trace.empty]
          · simp [fu_flashrom_internal_device_write_firmware, hIfd, hB, hSz,
              hRc, hV, stepDone_first, Trace.empty]
        · simp [fu_flashrom_internal_device_write_firmware, hIfd, hB, hSz, hRc,
            Trace.empty]
      · simp [fu_flashrom_internal_device_write_firmware, hIfd, hB, hSz,
          Trace.empty]
    · simp [fu_flashrom_internal_device_write_firmware, hIfd, hB, Trace.empty]

/-- Witness for C9 at the verify-failure fixture: the release count is 0
there, and the equivalence is concrete. -/
theorem layout_released_only_on_success_witness :
    (fu_flashrom_internal_device_write_firmware devVerifyFail
        (some img4)).2.2.layoutReleases ≤ 1 ∧
    ((fu_flashrom_internal_device_write_firmware devVerifyFail
        (some img4)).2.2.layoutReleases = 1 ↔
      (fu_flashrom_internal_device_write_firmware devVerifyFail
        (some img4)).2.1.done =
        [FwupdStatus.deviceWrite, FwupdStatus.deviceVerify]) :=
  layout_released_only_on_success devVerifyFail img4

/-- Claim C10: the prepare step, upon creating a backup, performs one
descriptor-layout read, one region restriction and one layout activation,
yet invokes `flashrom_layout_release` zero times — and it invokes it zero
times on every other path as well, for any device and filesystem. -/
theorem prepare_never_releases_layout (dev dev2 : Device)
    (localstatedir localstatedir2 : String) (fs fs2 : FS)
    (l : FlashromLayout) (c : List Nat)
    (hm : fs.mkdirErr = none)
    (habs : fs.files (backupPath localstatedir dev.deviceId) = none)
    (hl : dev.ctx.ifdLayout = some l)
    (hb : l.regions.contains "bios" = true)
    (hr : dev.ctx.imageRead (List.replicate dev.ctx.flashSize 0) = some c)
    (hs : fs.setContentsErr = none) :
    (fu_flashrom_internal_device_prepare dev localstatedir fs).1 =
      Except.ok () ∧
    (fu_flashrom_internal_device_prepare dev localstatedir fs).2.2.descReads = 1 ∧
    (fu_flashrom_internal_device_prepare dev localstatedir fs).2.2.includeRegions = 1 ∧
    (fu_flashrom_internal_device_prepare dev localstatedir fs).2.2.layoutSets = 1 ∧
    (fu_flashrom_internal_device_prepare dev localstatedir fs).2.2.fileWrites = 1 ∧
    (fu_flashrom_internal_device_prepare dev localstatedir fs).2.2.layoutReleases = 0 ∧
    (fu_flashrom_internal_device_prepare dev2 localstatedir2 fs2).2.2.layoutReleases = 0 := by
  have h1 : fu_flashrom_internal_device_prepare dev localstatedir fs =
      (Except.ok (),
       fs.write (backupPath localstatedir dev.deviceId) c,
       ⟨1, 1, 1, 0, 1, 0, 0, 1, 0⟩) := by
    simp only [fu_flashrom_internal_device_prepare, hm, habs, hl, hb, hr, hs,
      if_true]
    rfl
  have h2 : (fu_flashrom_internal_device_prepare dev2 localstatedir2
      fs2).2.2.layoutReleases = 0 := by
    unfold fu_flashrom_internal_device_prepare
    rcases fs2.mkdirErr with _ | e
    · rcases hfe : fs2.files (backupPath localstatedir2 dev2.deviceId) with _ | c2
      · simp only [hfe]
        rcases dev2.ctx.ifdLayout with _ | l2
        · rfl
        · by_cases hB2 : l2.regions.contains "bios"
          · simp only [hB2, if_true]
            rcases dev2.ctx.imageRead (List.replicate dev2.ctx.flashSize 0) with _ | b2
            · rfl
            · rcases fs2.setContentsErr with _ | e2 <;> rfl
          · simp only [hB2, Bool.false_eq_true, if_false]
            rfl
      · simp only [hfe]
        rfl
    · rfl
  rw [h1]
  exact ⟨rfl, rfl, rfl, rfl, rfl, rfl, h2⟩

/-- Witness for C10 at a concrete creating call (and a concrete second
device and filesystem for the any-path conjunct). -/
theorem prepare_never_releases_layout_witness :
    (fu_flashrom_internal_device_prepare (mkDevice false none (some okLayout) 0 0)
        "/var" fsEmpty).1 = Except.ok () ∧
    (fu_flashrom_internal_device_prepare (mkDevice false none (some okLayout) 0 0)
        "/var" fsEmpty).2.2.descReads = 1 ∧
    (fu_flashrom_internal_device_prepare (mkDevice false none (some okLayout) 0 0)
        "/var" fsEmpty).2.2.includeRegions = 1 ∧
    (fu_flashrom_internal_device_prepare (mkDevice false none (some okLayout) 0 0)
        "/var" fsEmpty).2.2.layoutSets = 1 ∧
    (fu_flashrom_internal_device_prepare (mkDevice false none (some okLayout) 0 0)
        "/var" fsEmpty).2.2.fileWrites = 1 ∧
    (fu_flashrom_internal_device_prepare (mkDevice false none (some okLayout) 0 0)
        "/var" fsEmpty).2.2.layoutReleases = 0 ∧
    (fu_flashrom_internal_device_prepare (mkDevice false none (some noBiosLayout) 0 0)
        "/var" fsEmpty).2.2.layoutReleases = 0 :=
  prepare_never_releases_layout (mkDevice false none (some okLayout) 0 0)
    (mkDevice false none (some noBiosLayout) 0 0) "/var" "/var" fsEmpty fsEmpty
    okLayout (List.replicate 4 0) rfl rfl rfl (by decide) rfl rfl

end Flashrom
